import Mathlib

/-!
Verification of `pkg/kafka/queue_receiver.go` from icemobilelab/qet.

The file shallowly embeds the Go code:

* `Chan` models a buffered Go channel of booleans (`make(chan bool, n)`).
* `DataBlock` models `transform.DataBlock`: a payload plus the `Ack` and
  `Nack` closures.  Each closure is represented by the identity of the
  outcome channel it writes to together with the boolean it sends, so the
  embedding can distinguish "same callback instance re-sent" from "fresh
  callback instance per attempt".
* `kafkaMsgLoop` / `kafkaMsgProcessor` model the message-processing
  callback of `kafkaMsgProcessor` in the source: the initial delivery of
  the work item on `output`, the blocking wait on `result`, the retry
  branch with backoff, and the dead-letter branch built from
  `goka.NewEmitter` and `EmitSync`.  The behaviour of the consumer is a
  function from attempt number to the boolean the consumer sends for that
  delivery; the behaviour of the external emitter is two booleans (does
  `NewEmitter` succeed, does `EmitSync` succeed).  The model returns the
  full observable trace: the work items sent to `output` in order, the
  backoff sleeps, the number of emitter creations and publish attempts,
  the records published to the error topic, and the terminal state.
* `KafkaReceiver`, `NewKafkaReceiver`, `startConsumer`, `Shutdown`,
  `ConnectCustomRetry` and `Connect` model the receiver lifecycle.  The
  `shutdown` field of the Go struct is a function pointer that is nil
  until `startConsumer` assigns the cancel function; it is modelled as an
  `Option Unit`, and calling a nil function is modelled as `GoPanic`.
-/

namespace Qet

/-- A buffered Go channel of booleans: `make(chan bool, capacity)`.
A send succeeds (without blocking) exactly when the buffer is not full. -/
structure Chan where
  capacity : Nat
  buffer : List Bool
  deriving DecidableEq

/-- One non-blocking send on a buffered channel: `none` means the send
would block because the buffer is full. -/
def Chan.send (c : Chan) (b : Bool) : Option Chan :=
  if c.buffer.length < c.capacity then some { c with buffer := c.buffer ++ [b] } else none

/-- Send a whole sequence of signals; `none` as soon as one send would block. -/
def Chan.sendAll (c : Chan) : List Bool → Option Chan
  | [] => some c
  | b :: bs =>
    match c.send b with
    | some c2 => c2.sendAll bs
    | none => none

/-- `result := make(chan bool, maxRetries+1)` in `kafkaMsgProcessor`. -/
def mkResultChan (maxRetries : Nat) : Chan :=
  { capacity := maxRetries + 1, buffer := [] }

/-- A callback closure `func() error \x7b result <- signal; return nil \x7d`:
the identity of the channel it is bound to, and the boolean it sends. -/
structure ResultCallback where
  chanId : Nat
  signal : Bool
  deriving DecidableEq

/-- `transform.DataBlock`: payload bytes plus the Ack and Nack closures. -/
structure DataBlock where
  Data : List Nat
  Ack : ResultCallback
  Nack : ResultCallback
  deriving DecidableEq

/-- Terminal state of one invocation of the processing callback. -/
inductive Terminal where
  /-- Consumer acked: "Success on message process". -/
  | succeeded
  /-- Retries exhausted and the payload was published to the error topic. -/
  | deadLettered
  /-- Retries exhausted but `goka.NewEmitter` failed: message dropped. -/
  | lostEmitterFail
  /-- Retries exhausted but `EmitSync` failed: message dropped. -/
  | lostPublishFail
  deriving DecidableEq

/-- A record published with `EmitSync(key, value)` on a stream. -/
structure EmitRecord where
  stream : String
  key : String
  value : List Nat
  deriving DecidableEq

/-- Observable effects of the `for`/`select` loop of `kafkaMsgProcessor`,
starting from a given value of `retries`. -/
structure LoopOut where
  /-- Work items sent on `output` by `output <- db` inside the loop. -/
  deliveries : List DataBlock
  /-- Backoff delays slept via `time.NewTimer` before each retry, in order. -/
  sleeps : List Int
  /-- Number of `goka.NewEmitter` calls. -/
  emitterCreations : Nat
  /-- Number of `EmitSync` calls. -/
  publishAttempts : Nat
  /-- Records successfully published to the error topic. -/
  deadLetters : List EmitRecord
  /-- How the callback returned. -/
  terminal : Terminal
  deriving DecidableEq

/-- The `for \x7b select \x7b case res := <-result: ... \x7d \x7d` loop of
`kafkaMsgProcessor`.  `consumer n` is the boolean the consumer sends on the
result channel in response to the n-th delivery (`true` for Ack, `false`
for Nack); since the loop reads one signal per delivery in order, the read
at loop counter `retries` yields `consumer retries`.  `newEmitterOk` and
`emitSyncOk` describe the external emitter.  The same `db` value is re-sent
on each retry, exactly as in the source. -/
def kafkaMsgLoop (consumer : Nat → Bool) (maxRetries : Nat)
    (retryExpirationCalc : Nat → Int) (newEmitterOk : Bool) (emitSyncOk : Bool)
    (errorTopic : String) (data : List Nat) (db : DataBlock)
    (retries : Nat) : LoopOut :=
  if consumer retries then
    -- res = true: success, return
    { deliveries := [], sleeps := [], emitterCreations := 0, publishAttempts := 0
      deadLetters := [], terminal := .succeeded }
  else if _h : retries ≥ maxRetries then
    -- too many retries: move message to dead-letter
    if newEmitterOk then
      if emitSyncOk then
        { deliveries := [], sleeps := [], emitterCreations := 1, publishAttempts := 1
          deadLetters := [{ stream := errorTopic, key := "", value := data }]
          terminal := .deadLettered }
      else
        -- "Error publishing error message (potentially lost)"
        { deliveries := [], sleeps := [], emitterCreations := 1, publishAttempts := 1
          deadLetters := [], terminal := .lostPublishFail }
    else
      -- "Error creating publisher to track error message"
      { deliveries := [], sleeps := [], emitterCreations := 1, publishAttempts := 0
        deadLetters := [], terminal := .lostEmitterFail }
  else
    -- sleep, re-deliver the same db, retries++
    let delay := retryExpirationCalc retries
    let rest := kafkaMsgLoop consumer maxRetries retryExpirationCalc newEmitterOk
      emitSyncOk errorTopic data db (retries + 1)
    { deliveries := db :: rest.deliveries, sleeps := delay :: rest.sleeps
      emitterCreations := rest.emitterCreations
      publishAttempts := rest.publishAttempts
      deadLetters := rest.deadLetters, terminal := rest.terminal }
termination_by maxRetries - retries
decreasing_by omega

/-- Observable effects of one invocation of the processing callback
returned by `kafkaMsgProcessor`, including the initial delivery. -/
structure ProcResult where
  /-- The outcome channel as created by `make(chan bool, maxRetries+1)`. -/
  resultChan : Chan
  /-- All work items sent on `output`, initial delivery first. -/
  deliveries : List DataBlock
  /-- Backoff delays slept, in order. -/
  sleeps : List Int
  /-- Number of `goka.NewEmitter` calls. -/
  emitterCreations : Nat
  /-- Number of `EmitSync` calls. -/
  publishAttempts : Nat
  /-- Records successfully published to the error topic. -/
  deadLetters : List EmitRecord
  /-- How the callback returned. -/
  terminal : Terminal
  deriving DecidableEq

/-- The message-processing callback of `kafkaMsgProcessor`: allocate the
result channel, build `db` once with both closures bound to that single
channel (`freshChanId` is the identity a fresh channel allocation would
get), send the initial delivery, then run the loop from `retries = 0`. -/
def kafkaMsgProcessor (consumer : Nat → Bool) (maxRetries : Nat)
    (retryExpirationCalc : Nat → Int) (newEmitterOk : Bool) (emitSyncOk : Bool)
    (errorTopic : String) (data : List Nat) (freshChanId : Nat) : ProcResult :=
  let result := mkResultChan maxRetries
  let db : DataBlock :=
    { Data := data
      Ack := { chanId := freshChanId, signal := true }
      Nack := { chanId := freshChanId, signal := false } }
  let rest := kafkaMsgLoop consumer maxRetries retryExpirationCalc newEmitterOk
    emitSyncOk errorTopic data db 0
  { resultChan := result
    deliveries := db :: rest.deliveries
    sleeps := rest.sleeps
    emitterCreations := rest.emitterCreations
    publishAttempts := rest.publishAttempts
    deadLetters := rest.deadLetters
    terminal := rest.terminal }

/-- A Go runtime panic relevant to this code: calling a function value
that is nil. -/
inductive GoPanic where
  | nilFunctionCall
  deriving DecidableEq

/-- The `KafkaReceiver` struct.  The `shutdown` field is a `func()` pointer,
nil until assigned; it is modelled as `Option Unit` where `none` is nil. -/
structure KafkaReceiver where
  brokers : List String
  group : String
  topic : String
  errorTopic : String
  shutdown : Option Unit
  deriving DecidableEq

/-- `NewKafkaReceiver`: builds the struct; `errorTopic` is `topic + ".errors"`
and `shutdown` is left at its zero value (nil). -/
def NewKafkaReceiver (brokers : List String) (group topic : String) : KafkaReceiver :=
  { brokers := brokers
    group := group
    topic := topic
    errorTopic := topic ++ ".errors"
    shutdown := none }

/-- The configuration `startConsumer` wires into the goka group graph for
the message-processing callback (the arguments of `kafkaMsgProcessor`). -/
structure ProcessorWiring where
  errorTopic : String
  maxRetries : Nat
  retryExpirationCalc : Nat → Int

/-- Result of `startConsumer`: the error returned (if any), the receiver as
left by the call, whether `go processor.Run(ctx)` was started, and the
processor wiring when the processor was built. -/
structure StartConsumerResult where
  err : Option String
  receiver : KafkaReceiver
  runLoopStarted : Bool
  wiring : Option ProcessorWiring

/-- `startConsumer`: builds the group graph, then calls `goka.NewProcessor`
(whose outcome is the external input `newProcessor`).  On error the error is
returned at once: `shutdown` is not assigned and the run loop is not
started.  On success, `q.shutdown` is set to the cancel function and the run
loop goroutine is started. -/
def startConsumer (q : KafkaReceiver) (maxRetries : Nat)
    (retryExpirationCalc : Nat → Int) (newProcessor : Except String Unit) :
    StartConsumerResult :=
  match newProcessor with
  | .error e =>
    { err := some e, receiver := q, runLoopStarted := false, wiring := none }
  | .ok _ =>
    { err := none
      receiver := { q with shutdown := some () }
      runLoopStarted := true
      wiring := some { errorTopic := q.errorTopic, maxRetries := maxRetries
                       retryExpirationCalc := retryExpirationCalc } }

/-- `Shutdown`: calls `q.shutdown()`.  If the field is nil this is a nil
function call, a Go panic; otherwise the cancel function runs and `Shutdown`
returns a nil error. -/
def Shutdown (q : KafkaReceiver) : Except GoPanic (Option String) :=
  match q.shutdown with
  | none => .error .nilFunctionCall
  | some _ => .ok none

/-- Result of `ConnectCustomRetry` when it returns (rather than panics). -/
structure ConnectResult where
  err : Option String
  receiver : KafkaReceiver
  runLoopStarted : Bool
  wiring : Option ProcessorWiring

/-- `ConnectCustomRetry`: runs `startConsumer`; on error, `defer q.Shutdown`
runs before the error can be returned (a panic in the deferred call
propagates instead of the return value); on success it returns nil. -/
def ConnectCustomRetry (q : KafkaReceiver) (maxRetries : Nat)
    (retryExpirationCalc : Nat → Int) (newProcessor : Except String Unit) :
    Except GoPanic ConnectResult :=
  let s := startConsumer q maxRetries retryExpirationCalc newProcessor
  match s.err with
  | some e =>
    match Shutdown s.receiver with
    | .error p => .error p
    | .ok _ =>
      .ok { err := some e, receiver := s.receiver
            runLoopStarted := s.runLoopStarted, wiring := s.wiring }
  | none =>
    .ok { err := none, receiver := s.receiver
          runLoopStarted := s.runLoopStarted, wiring := s.wiring }

/-- Two's-complement wrap of an integer into a signed 64-bit value, the
arithmetic of the Go `int` type on a 64-bit platform. -/
def int64Wrap (x : Int) : Int :=
  (x + 2 ^ 63) % 2 ^ 64 - 2 ^ 63

/-- `int(math.Pow(2.0, float64(retry)))`: `math.Pow(2, retry)` is the
exact float64 value 2 to the `retry` for every retry count that matters
(exponents up to 1023), and the conversion to `int` yields that value
while it fits in a signed 64-bit integer, i.e. for `retry ≤ 62`.  Beyond
that the conversion is out of range and its result is
implementation-dependent; the model uses the amd64 result, the minimum
64-bit integer. -/
def goPowInt (retry : Nat) : Int :=
  if retry ≤ 62 then 2 ^ retry else -(2 ^ 63)

/-- The default backoff of `Connect`:
`1000 * int(math.Pow(2.0, float64(retry)))`, computed in the 64-bit Go
`int` type, so the multiplication by 1000 wraps around for
`retry ≥ 54`. -/
def defaultRetryFuncTime (retry : Nat) : Int :=
  int64Wrap (1000 * goPowInt retry)

/-- The default maximum number of retries passed by `Connect`. -/
def defaultMaxRetries : Nat := 3

/-- `Connect`: delegates to `ConnectCustomRetry` with `maxRetries = 3` and
the exponential backoff `defaultRetryFuncTime`. -/
def Connect (q : KafkaReceiver) (newProcessor : Except String Unit) :
    Except GoPanic ConnectResult :=
  ConnectCustomRetry q defaultMaxRetries defaultRetryFuncTime newProcessor

/-! ## Helper lemmas -/

/-- Closed form of the loop for a consumer that always Nacks: starting at
loop counter `retries ≤ maxRetries`, the loop performs one further delivery
of the same `db` per remaining retry, sleeps the configured delays in
order, then runs the dead-letter branch once. -/
theorem kafkaMsgLoop_allNack (maxRetries : Nat) (rc : Nat → Int)
    (eOk pOk : Bool) (et : String) (data : List Nat) (db : DataBlock) :
    ∀ d retries, maxRetries - retries = d → retries ≤ maxRetries →
    kafkaMsgLoop (fun _ => false) maxRetries rc eOk pOk et data db retries =
      { deliveries := List.replicate (maxRetries - retries) db
        sleeps := (List.range' retries (maxRetries - retries)).map rc
        emitterCreations := 1
        publishAttempts := if eOk then 1 else 0
        deadLetters :=
          if eOk && pOk then [{ stream := et, key := "", value := data }] else []
        terminal :=
          if eOk then (if pOk then .deadLettered else .lostPublishFail)
          else .lostEmitterFail } := by
  intro d
  induction d with
  | zero =>
    intro retries hd hle
    have hge : retries ≥ maxRetries := by omega
    rw [kafkaMsgLoop]
    rw [hd]
    cases eOk <;> cases pOk <;> simp [hge]
  | succ n ih =>
    intro retries hd hle
    have hlt : ¬ retries ≥ maxRetries := by omega
    rw [kafkaMsgLoop]
    rw [ih (retries + 1) (by omega) (by omega)]
    have h1 : maxRetries - (retries + 1) = n := by omega
    have h2 : maxRetries - retries = n + 1 := hd
    rw [h1, h2, List.range'_succ]
    simp [hlt, List.replicate_succ]

/-- Closed form of a whole callback invocation for a consumer that always
Nacks: `maxRetries + 1` identical deliveries of the one work item built at
the start, the configured sleeps, then the dead-letter branch. -/
theorem kafkaMsgProcessor_allNack (k : Nat) (rc : Nat → Int) (eOk pOk : Bool)
    (et : String) (data : List Nat) (cid : Nat) :
    kafkaMsgProcessor (fun _ => false) k rc eOk pOk et data cid =
      { resultChan := mkResultChan k
        deliveries := List.replicate (k + 1)
          { Data := data, Ack := { chanId := cid, signal := true }
            Nack := { chanId := cid, signal := false } }
        sleeps := (List.range' 0 k).map rc
        emitterCreations := 1
        publishAttempts := if eOk then 1 else 0
        deadLetters :=
          if eOk && pOk then [{ stream := et, key := "", value := data }] else []
        terminal :=
          if eOk then (if pOk then .deadLettered else .lostPublishFail)
          else .lostEmitterFail } := by
  unfold kafkaMsgProcessor
  dsimp only
  rw [kafkaMsgLoop_allNack k rc eOk pOk et data _ (k - 0) 0 rfl (by omega)]
  simp [List.replicate_succ]

/-- Closed form of a whole callback invocation when the consumer Acks the
first delivery: one delivery, no sleeps, no emitter activity. -/
theorem kafkaMsgProcessor_ackFirst (consumer : Nat → Bool) (k : Nat)
    (rc : Nat → Int) (eOk pOk : Bool) (et : String) (data : List Nat)
    (cid : Nat) (h : consumer 0 = true) :
    kafkaMsgProcessor consumer k rc eOk pOk et data cid =
      { resultChan := mkResultChan k
        deliveries := [{ Data := data, Ack := { chanId := cid, signal := true }
                         Nack := { chanId := cid, signal := false } }]
        sleeps := []
        emitterCreations := 0
        publishAttempts := 0
        deadLetters := []
        terminal := .succeeded } := by
  unfold kafkaMsgProcessor
  dsimp only
  rw [kafkaMsgLoop]
  simp [h]

/-- The result channel recorded by the model is the one built by
`make(chan bool, maxRetries+1)`. -/
theorem kafkaMsgProcessor_resultChan (consumer : Nat → Bool) (k : Nat)
    (rc : Nat → Int) (eOk pOk : Bool) (et : String) (data : List Nat)
    (cid : Nat) :
    (kafkaMsgProcessor consumer k rc eOk pOk et data cid).resultChan =
      mkResultChan k := rfl

/-- Sending a sequence of signals never blocks while the buffer has room
for all of them. -/
theorem Chan.sendAll_isSome (sigs : List Bool) :
    ∀ c : Chan, c.buffer.length + sigs.length ≤ c.capacity →
    (Chan.sendAll c sigs).isSome := by
  induction sigs with
  | nil =>
    intro c _
    simp [Chan.sendAll]
  | cons b bs ih =>
    intro c h
    have hs : c.buffer.length < c.capacity := by
      simp only [List.length_cons] at h
      omega
    rw [Chan.sendAll, Chan.send, if_pos hs]
    apply ih
    simp only [List.length_append, List.length_cons] at h ⊢
    simp
    omega

/-! ## Claim theorems -/

/-- Claim C1: for every `maxRetries = k` and a consumer that Nacks every
delivery (with the emitter working), the callback sends the work item on
the outbound channel exactly `k + 1` times and publishes exactly one copy
of the payload to the dead-letter topic; with `k = 0` there is a single
delivery and an immediate dead-letter. -/
theorem C1_always_nack_k_plus_one_deliveries_one_deadletter (k : Nat)
    (rc : Nat → Int) (et : String) (data : List Nat) (cid : Nat) :
    (kafkaMsgProcessor (fun _ => false) k rc true true et data cid).deliveries.length = k + 1 ∧
    (kafkaMsgProcessor (fun _ => false) k rc true true et data cid).deadLetters =
      [{ stream := et, key := "", value := data }] ∧
    (kafkaMsgProcessor (fun _ => false) k rc true true et data cid).terminal =
      .deadLettered := by
  rw [kafkaMsgProcessor_allNack]
  simp

/-- Claim C5: if the consumer Acks the first delivery, exactly one work
item is sent on the outbound channel, nothing is published to the
dead-letter topic, and the callback returns immediately with no backoff
sleeps. -/
theorem C5_ack_first_delivery_single_delivery (consumer : Nat → Bool)
    (k : Nat) (rc : Nat → Int) (eOk pOk : Bool) (et : String)
    (data : List Nat) (cid : Nat) (h : consumer 0 = true) :
    (kafkaMsgProcessor consumer k rc eOk pOk et data cid).deliveries =
      [{ Data := data, Ack := { chanId := cid, signal := true }
         Nack := { chanId := cid, signal := false } }] ∧
    (kafkaMsgProcessor consumer k rc eOk pOk et data cid).deadLetters = [] ∧
    (kafkaMsgProcessor consumer k rc eOk pOk et data cid).publishAttempts = 0 ∧
    (kafkaMsgProcessor consumer k rc eOk pOk et data cid).sleeps = [] ∧
    (kafkaMsgProcessor consumer k rc eOk pOk et data cid).terminal = .succeeded := by
  rw [kafkaMsgProcessor_ackFirst consumer k rc eOk pOk et data cid h]
  simp

/-- Witness for C5 at a concrete input: an always-Ack consumer,
`maxRetries = 3`, payload `[1, 2]`. -/
theorem C5_ack_first_delivery_single_delivery_witness :
    (kafkaMsgProcessor (fun _ => true) 3 (fun n => 1000 * 2 ^ n) true true
        "events.errors" [1, 2] 0).deliveries =
      [{ Data := [1, 2], Ack := { chanId := 0, signal := true }
         Nack := { chanId := 0, signal := false } }] ∧
    (kafkaMsgProcessor (fun _ => true) 3 (fun n => 1000 * 2 ^ n) true true
        "events.errors" [1, 2] 0).deadLetters = [] ∧
    (kafkaMsgProcessor (fun _ => true) 3 (fun n => 1000 * 2 ^ n) true true
        "events.errors" [1, 2] 0).publishAttempts = 0 ∧
    (kafkaMsgProcessor (fun _ => true) 3 (fun n => 1000 * 2 ^ n) true true
        "events.errors" [1, 2] 0).sleeps = [] ∧
    (kafkaMsgProcessor (fun _ => true) 3 (fun n => 1000 * 2 ^ n) true true
        "events.errors" [1, 2] 0).terminal = .succeeded :=
  C5_ack_first_delivery_single_delivery (fun _ => true) 3 (fun n => 1000 * 2 ^ n)
    true true "events.errors" [1, 2] 0 rfl

/-- Claim C4: when retries are exhausted and the synchronous dead-letter
publish (`EmitSync`) fails, the callback returns normally in the terminal
state for a lost message: no further delivery of the work item, exactly one
publish attempt (no retry of the publish), and nothing on the dead-letter
topic. -/
theorem C4_publish_failure_drops_message (k : Nat) (rc : Nat → Int)
    (et : String) (data : List Nat) (cid : Nat) :
    (kafkaMsgProcessor (fun _ => false) k rc true false et data cid).terminal =
      .lostPublishFail ∧
    (kafkaMsgProcessor (fun _ => false) k rc true false et data cid).deliveries.length =
      k + 1 ∧
    (kafkaMsgProcessor (fun _ => false) k rc true false et data cid).publishAttempts = 1 ∧
    (kafkaMsgProcessor (fun _ => false) k rc true false et data cid).deadLetters = [] := by
  rw [kafkaMsgProcessor_allNack]
  simp

/-- Claim C9: when retries are exhausted and `goka.NewEmitter` fails, the
callback returns normally without ever attempting the publish: zero
`EmitSync` calls, nothing on the dead-letter topic, no further delivery. -/
theorem C9_emitter_creation_failure_drops_message (k : Nat) (rc : Nat → Int)
    (et : String) (data : List Nat) (cid : Nat) :
    (kafkaMsgProcessor (fun _ => false) k rc false false et data cid).terminal =
      .lostEmitterFail ∧
    (kafkaMsgProcessor (fun _ => false) k rc false false et data cid).publishAttempts = 0 ∧
    (kafkaMsgProcessor (fun _ => false) k rc false false et data cid).deadLetters = [] ∧
    (kafkaMsgProcessor (fun _ => false) k rc false false et data cid).deliveries.length =
      k + 1 := by
  rw [kafkaMsgProcessor_allNack]
  simp

/-- Claim C7: the dead-letter topic is exactly the source topic with
`".errors"` appended, and the record published there after exhausted
retries carries the original payload byte-for-byte with an empty key and
nothing else. -/
theorem C7_error_topic_and_verbatim_payload (brokers : List String)
    (group topic : String) (k : Nat) (rc : Nat → Int) (data : List Nat)
    (cid : Nat) :
    (NewKafkaReceiver brokers group topic).errorTopic = topic ++ ".errors" ∧
    (kafkaMsgProcessor (fun _ => false) k rc true true
        (NewKafkaReceiver brokers group topic).errorTopic data cid).deadLetters =
      [{ stream := topic ++ ".errors", key := "", value := data }] := by
  refine ⟨rfl, ?_⟩
  rw [kafkaMsgProcessor_allNack]
  simp [NewKafkaReceiver]

/-- Claim C8: the outcome channel is created with buffer capacity exactly
`maxRetries + 1`, so any sequence of at most `maxRetries + 1` Ack/Nack
signals can be sent on it without the sender ever blocking. -/
theorem C8_result_channel_absorbs_all_signals (consumer : Nat → Bool)
    (k : Nat) (rc : Nat → Int) (eOk pOk : Bool) (et : String)
    (data : List Nat) (cid : Nat) (sigs : List Bool)
    (h : sigs.length ≤ k + 1) :
    (kafkaMsgProcessor consumer k rc eOk pOk et data cid).resultChan.capacity = k + 1 ∧
    ((kafkaMsgProcessor consumer k rc eOk pOk et data cid).resultChan.sendAll sigs).isSome := by
  rw [kafkaMsgProcessor_resultChan]
  refine ⟨rfl, ?_⟩
  apply Chan.sendAll_isSome
  simpa [mkResultChan] using h

/-- Witness for C8 at a concrete input: `maxRetries = 2` and three
signals. -/
theorem C8_result_channel_absorbs_all_signals_witness :
    (kafkaMsgProcessor (fun _ => true) 2 (fun _ => 0) true true "t.errors"
        [5] 0).resultChan.capacity = 2 + 1 ∧
    ((kafkaMsgProcessor (fun _ => true) 2 (fun _ => 0) true true "t.errors"
        [5] 0).resultChan.sendAll [true, false, false]).isSome :=
  C8_result_channel_absorbs_all_signals (fun _ => true) 2 (fun _ => 0) true true
    "t.errors" [5] 0 [true, false, false] (by decide)

/-- Counterexample to claim C3 as stated: with `maxRetries = 1` and an
always-Nack consumer, the retry re-sends the very same work item — both
deliveries carry identical Ack/Nack callback instances bound to the one
outcome channel (channel identity 0), so the channel identities of the
deliveries are not distinct and no fresh completion signal exists per
attempt. -/
theorem C3_counterexample_shared_channel_on_retry :
    (kafkaMsgProcessor (fun _ => false) 1 (fun _ => 0) true true "t.errors"
        [7] 0).deliveries =
      [{ Data := [7], Ack := { chanId := 0, signal := true }
         Nack := { chanId := 0, signal := false } },
       { Data := [7], Ack := { chanId := 0, signal := true }
         Nack := { chanId := 0, signal := false } }] ∧
    ¬ ((kafkaMsgProcessor (fun _ => false) 1 (fun _ => 0) true true "t.errors"
        [7] 0).deliveries.map (fun d => d.Ack.chanId)).Nodup := by
  rw [kafkaMsgProcessor_allNack]
  constructor
  · simp [List.replicate_succ]
  · simp [List.replicate_succ]

/-- Claim C3 amended: on each retry the processor re-sends the same work
item value — same payload and the same Ack/Nack callback instances, all
bound to the single outcome channel created once per message — so every
delivery of the message is identical to the first. -/
theorem C3_amended_same_work_item_redelivered (k : Nat) (rc : Nat → Int)
    (eOk pOk : Bool) (et : String) (data : List Nat) (cid : Nat) :
    (kafkaMsgProcessor (fun _ => false) k rc eOk pOk et data cid).deliveries =
      List.replicate (k + 1)
        { Data := data, Ack := { chanId := cid, signal := true }
          Nack := { chanId := cid, signal := false } } := by
  rw [kafkaMsgProcessor_allNack]

/-- `int64Wrap` is the identity on values that fit in a signed 64-bit
integer. -/
theorem int64Wrap_eq_self (x : Int) (h0 : -(2 ^ 63) ≤ x) (h1 : x < 2 ^ 63) :
    int64Wrap x = x := by
  unfold int64Wrap
  have e3 : (2 : Int) ^ 63 = 9223372036854775808 := by norm_num
  have e4 : (2 : Int) ^ 64 = 18446744073709551616 := by norm_num
  rw [e3] at h0 h1 ⊢
  rw [e4]
  omega

/-- Below the wrap point (`n ≤ 53`, where `1000 * 2 ^ n` still fits in a
signed 64-bit integer) the default backoff is exactly 1000 times 2 to
the n. -/
theorem defaultRetryFuncTime_eq_of_le (n : Nat) (h : n ≤ 53) :
    defaultRetryFuncTime n = 1000 * 2 ^ n := by
  unfold defaultRetryFuncTime goPowInt
  rw [if_pos (by omega : n ≤ 62)]
  apply int64Wrap_eq_self
  · have h2 : (0 : Int) ≤ 1000 * 2 ^ n := by positivity
    have h3 : (0 : Int) < 2 ^ 63 := by positivity
    linarith
  · have hn : (2 : ℕ) ^ n ≤ 2 ^ 53 := Nat.pow_le_pow_right (by norm_num) h
    have hInt : (2 : Int) ^ n ≤ 2 ^ 53 := by exact_mod_cast hn
    have hb : (1000 : Int) * 2 ^ 53 < 2 ^ 63 := by norm_num
    linarith

/-- Counterexample to claim C6 as stated: the default delay is computed in
the 64-bit Go `int` type, so at attempt 54 it wraps to a negative value.
It is not 1000 times 2 to the 54, and it is smaller than the delay at
attempt 53 — refuting both the claimed closed form for every attempt and
strict increase over that whole domain. -/
theorem C6_counterexample_wrap_at_retry_54 :
    defaultRetryFuncTime 54 = -432345564227567616 ∧
    defaultRetryFuncTime 54 ≠ 1000 * 2 ^ 54 ∧
    ¬ defaultRetryFuncTime 53 < defaultRetryFuncTime 54 := by
  refine ⟨?_, ?_, ?_⟩ <;> decide

/-- Claim C6 amended: `Connect` wires `maxRetries = 3` and the default
backoff closure into the processor; that delay, computed in the 64-bit Go
`int` type, equals 1000 times 2 to the n and is strictly increasing for
`n ≤ 53` — in particular for every attempt number reachable with the
default `maxRetries = 3` — and wraps around beyond that. -/
theorem C6_amended_connect_default_config (brokers : List String)
    (group topic : String) :
    (∃ r : ConnectResult,
        Connect (NewKafkaReceiver brokers group topic) (.ok ()) = .ok r ∧
        r.wiring = some { errorTopic := (NewKafkaReceiver brokers group topic).errorTopic
                          maxRetries := 3
                          retryExpirationCalc := defaultRetryFuncTime }) ∧
    defaultMaxRetries = 3 ∧
    (∀ n : Nat, n ≤ 53 → defaultRetryFuncTime n = 1000 * 2 ^ n) ∧
    (∀ m n : Nat, m < n → n ≤ 53 →
      defaultRetryFuncTime m < defaultRetryFuncTime n) := by
  refine ⟨⟨_, rfl, rfl⟩, rfl, fun n hn => defaultRetryFuncTime_eq_of_le n hn, ?_⟩
  intro m n hmn hn
  rw [defaultRetryFuncTime_eq_of_le m (by omega), defaultRetryFuncTime_eq_of_le n hn]
  have hNat : (2 : ℕ) ^ m < 2 ^ n := Nat.pow_lt_pow_right (by norm_num) hmn
  have hInt : (2 : Int) ^ m < 2 ^ n := by exact_mod_cast hNat
  linarith

/-- Claim C10: the `shutdown` field is nil on a fresh receiver, stays nil
when `startConsumer` fails, is assigned only on success, and calling
`Shutdown` before a successful connect — in particular the deferred
`Shutdown` on the error path of `ConnectCustomRetry` — is a nil function
call, a panic, not an error return. -/
theorem C10_shutdown_nil_before_successful_start (brokers : List String)
    (group topic e : String) (mr : Nat) (rft : Nat → Int) :
    (NewKafkaReceiver brokers group topic).shutdown = none ∧
    (startConsumer (NewKafkaReceiver brokers group topic) mr rft
        (.error e)).receiver.shutdown = none ∧
    (startConsumer (NewKafkaReceiver brokers group topic) mr rft
        (.ok ())).receiver.shutdown = some () ∧
    Shutdown (NewKafkaReceiver brokers group topic) = .error .nilFunctionCall ∧
    ConnectCustomRetry (NewKafkaReceiver brokers group topic) mr rft
        (.error e) = .error .nilFunctionCall :=
  ⟨rfl, rfl, rfl, rfl, rfl⟩

/-- Claim C2 divergence: when `startConsumer` fails on a fresh receiver,
the run loop is indeed not started and the error is recorded, but
`ConnectCustomRetry` does not return that error — the deferred `Shutdown`
calls the still-nil `shutdown` field and the call panics. -/
theorem C2_connect_error_path_panics (brokers : List String)
    (group topic e : String) (mr : Nat) (rft : Nat → Int) :
    (startConsumer (NewKafkaReceiver brokers group topic) mr rft
        (.error e)).runLoopStarted = false ∧
    (startConsumer (NewKafkaReceiver brokers group topic) mr rft
        (.error e)).err = some e ∧
    ConnectCustomRetry (NewKafkaReceiver brokers group topic) mr rft
        (.error e) = .error .nilFunctionCall :=
  ⟨rfl, rfl, rfl⟩

end Qet
